import Mathlib

/-!
Verification of the RealEstateAPP backend against its specification.

The development shallowly embeds the backend's data model and operations:
  * `models.py`   — the stored `properties` table row (nullable columns),
  * `schemas.py`  — the pydantic response schema (all fields required),
  * `main.py`     — the two GET routes, their 404 handling and the
                    per-request session lifecycle,
  * `excel_sample.py` — the spreadsheet ingestion transform,
  * `app.py`      — the dashboard's detail selection and the default
                    max-price widget value.
The query-layer functions of `crud.py` (absent from the source tree; only
`main.py` and the test suite reference them) are modelled from the spec,
as marked on each definition.
-/

namespace RealEstate

/-- A row of the `properties` table as declared in `models.py`:
`id` is the integer primary key; `name`, `address`, `price` are nullable
columns (SQLAlchemy `String`, `String`, `Float` without `nullable=False`),
so each is an `Option`. Prices are exact numerals at this level (no float
arithmetic is performed on them anywhere in the backend). -/
structure StoredProperty where
  id : Int
  name : Option String
  address : Option String
  price : Option ℚ
deriving DecidableEq, Repr

/-- The response schema `schemas.Property` of `schemas.py`: all four fields
are declared without `Optional`, hence required and non-null. -/
structure SchemaProperty where
  id : Int
  name : String
  address : String
  price : ℚ
deriving DecidableEq, Repr

/-- The request schema `schemas.PropertyCreate` (name, address, price). -/
structure PropertyCreate where
  name : String
  address : String
  price : ℚ
deriving DecidableEq, Repr

/-- Pydantic validation of a stored row against `schemas.Property`
(`from_attributes = True`): succeeds exactly when every nullable column
actually holds a value. -/
def validateProperty (r : StoredProperty) : Option SchemaProperty :=
  match r.name, r.address, r.price with
  | some n, some a, some p => some ⟨r.id, n, a, p⟩
  | _, _, _ => none

/-- Validation of a list response (`response_model=List[schemas.Property]`):
every element must validate. -/
def validateAll : List StoredProperty → Option (List SchemaProperty)
  | [] => some []
  | r :: rs =>
    match validateProperty r, validateAll rs with
    | some j, some l => some (j :: l)
    | _, _ => none

/-- Modelled from the spec: `crud.get_property` is not in the source tree
(only `main.py` and the tests call it). Per spec §4.1 it is an exact-match
lookup on the primary key, returning absent (not an error) when no row
matches, including for id ≤ 0. The store state is the table in
insertion/primary-key order. -/
def get_property (db : List StoredProperty) (pid : Int) : Option StoredProperty :=
  db.find? (fun r => r.id == pid)

/-- Modelled from the spec: `crud.get_properties` is not in the source tree.
Per spec §4.1 it applies offset `skip` and row cap `limit` to a full-table
scan in the store's natural (insertion/primary-key) order. -/
def get_properties (db : List StoredProperty) (skip limit : ℕ) : List StoredProperty :=
  (db.drop skip).take limit

/-- Largest id present in the store (0 for an empty store). -/
def maxId (db : List StoredProperty) : Int :=
  db.foldr (fun r m => max r.id m) 0

/-- Modelled from the spec: `crud.create_property` is not in the source tree.
Per spec §3 the store assigns ids uniquely and monotonically increasing,
never reusing one; the new row is appended in insertion order with the
given field values. -/
def create_property (db : List StoredProperty) (c : PropertyCreate) :
    StoredProperty × List StoredProperty :=
  let p : StoredProperty := ⟨maxId db + 1, some c.name, some c.address, some c.price⟩
  (p, db ++ [p])

/-- Outcome of an API request: 200 with a single object, 200 with an array,
404 with a detail message, or a response-model validation failure (FastAPI
turns the latter into a 500). -/
inductive ApiResult where
  | ok (body : SchemaProperty)
  | okList (body : List SchemaProperty)
  | notFound (detail : String)
  | validationError
deriving DecidableEq, Repr

/-- HTTP status code of an outcome. -/
def ApiResult.status : ApiResult → ℕ
  | .ok _ => 200
  | .okList _ => 200
  | .notFound _ => 404
  | .validationError => 500

/-- The route `GET /properties/{property_id}` of `main.py`: looks the id up,
raises HTTPException 404 with detail "Property not found" when absent,
otherwise returns the row serialized through `response_model=schemas.Property`. -/
def read_property (db : List StoredProperty) (pid : Int) : ApiResult :=
  match get_property db pid with
  | none => .notFound "Property not found"
  | some r =>
    match validateProperty r with
    | some j => .ok j
    | none => .validationError

/-- The route `GET /properties/` of `main.py`: paginated scan serialized
through `response_model=List[schemas.Property]`. -/
def read_properties (db : List StoredProperty) (skip limit : ℕ) : ApiResult :=
  match validateAll (get_properties db skip limit) with
  | some l => .okList l
  | none => .validationError

/-- The two requests the API accepts (both GET). -/
inductive ApiRequest where
  | listProps (skip limit : ℕ)
  | getProp (pid : Int)
deriving DecidableEq, Repr

/-- Dispatch of a request against a store state, returning the response and
the store state afterwards. Neither route contains an insert, update or
delete, so the store is passed through. -/
def handle : ApiRequest → List StoredProperty → ApiResult × List StoredProperty
  | .listProps s l, db => (read_properties db s l, db)
  | .getProp pid, db => (read_property db pid, db)

/-- A demo store for concrete instantiations: one row with id 1, fully
populated (the first seed row of `init_db.py`). -/
def demoDb : List StoredProperty :=
  [⟨1, some "新宿ハイツ", some "東京都新宿区西新宿1-1-1", some (85000 : ℚ)⟩]

/-- Bookkeeping for database sessions: `nextSession` numbers the session a
`SessionLocal()` call will create next; `openSessions` are the session ids
currently open. -/
structure SessionPool where
  nextSession : ℕ
  openSessions : List ℕ
deriving DecidableEq, Repr

/-- `SessionLocal()`: creates a fresh session and registers it open. -/
def openSession (p : SessionPool) : ℕ × SessionPool :=
  (p.nextSession, ⟨p.nextSession + 1, p.nextSession :: p.openSessions⟩)

/-- `db.close()`: releases the session. -/
def closeSession (sid : ℕ) (p : SessionPool) : SessionPool :=
  { p with openSessions := p.openSessions.erase sid }

/-- `read_property` of `main.py` with its session lifecycle made explicit:
`db = SessionLocal()` at entry, the body computes the response (the 404
branch raises inside the `try`), and the `finally` block closes the session
on both the success and the raising path. Returns the response, the session
id this request used, and the pool afterwards. -/
def read_property_session (db : List StoredProperty) (pid : Int)
    (pool : SessionPool) : ApiResult × ℕ × SessionPool :=
  let (sid, p1) := openSession pool
  let resp := read_property db pid
  (resp, sid, closeSession sid p1)

/-- `read_properties` of `main.py` with its session lifecycle made
explicit, as in `read_property_session`. -/
def read_properties_session (db : List StoredProperty) (skip limit : ℕ)
    (pool : SessionPool) : ApiResult × ℕ × SessionPool :=
  let (sid, p1) := openSession pool
  let resp := read_properties db skip limit
  (resp, sid, closeSession sid p1)

/-- Truncation toward zero, as numpy `astype(int)` and Python `int()` apply
to a float. -/
def truncRat (q : ℚ) : Int :=
  if 0 ≤ q then ⌊q⌋ else ⌈q⌉

/-- The dashboard's default maximum-price widget value, from `app.py`:
`int(df["price"].max())`. Pandas `max` of an empty column is NaN and
`int(NaN)` raises `ValueError`, modelled as the error branch. -/
def defaultMaxPrice (prices : List ℚ) : Except String Int :=
  match prices.max? with
  | none => .error "cannot convert float NaN to integer"
  | some m => .ok (truncRat m)

/-- Dashboard initialization up to the sidebar widgets of `app.py`: reading
the table succeeded, the min-price default is 0, and the max-price default
is computed from the price column; the whole initialization fails if that
computation raises. -/
def dashboardInit (rows : List SchemaProperty) : Except String (Int × Int) :=
  match defaultMaxPrice (rows.map (fun r => r.price)) with
  | .error e => .error e
  | .ok m => .ok (0, m)

/-! ### Ingestion (`excel_sample.py`)

A spreadsheet row has the six fixed columns; only the three the transform
uses are modelled. The prefecture cell is an explicit name, the
repeat-marker glyph `〃`, or blank; the average-price cell is `some q` when
`pd.to_numeric(_, errors="coerce")` coerces it to the number `q` and `none`
when coercion fails (NaN). -/

/-- A prefecture-name cell. -/
inductive PrefCell where
  | name (s : String)
  | marker
  | blank
deriving DecidableEq, Repr

/-- A spreadsheet row after concatenating all sheets: prefecture cell, city
name, and the average-price cell as coerced by `pd.to_numeric`. -/
structure SheetRow where
  pref : PrefCell
  city : String
  avg : Option ℚ
deriving DecidableEq, Repr

/-- A record emitted by the ingestion transform
(`models.Property(name=..., address=..., price=...)`). -/
structure IngestedProperty where
  name : String
  address : String
  price : Int
deriving DecidableEq, Repr

/-- The prefecture cell after `replace('〃', pd.NA)`: the marker (and a
blank cell) become missing, an explicit name stays. -/
def prefToOpt : PrefCell → Option String
  | .name s => some s
  | .marker => none
  | .blank => none

/-- `fillna(method='ffill')` on one column: each missing entry takes the
value carried from above (`last`), each present entry replaces it. -/
def ffill (last : Option String) : List (Option String) → List (Option String)
  | [] => []
  | some s :: xs => some s :: ffill (some s) xs
  | none :: xs => last :: ffill last xs

/-- The value the forward-fill carries after consuming a column prefix. -/
def lastVal (last : Option String) : List (Option String) → Option String
  | [] => last
  | some s :: xs => lastVal (some s) xs
  | none :: xs => lastVal last xs

/-- Rendering a possibly-missing prefecture into the `address` string:
`f"{row['都道府県名']}"` yields the name, or `"<NA>"` for a still-missing
value. -/
def fillNA : Option String → String
  | some s => s
  | none => "<NA>"

/-- `df.dropna(subset=['平均価格'])` after coercion: the rows whose
average-price cell coerced to a number, in order. -/
def retainedRows (rows : List SheetRow) : List SheetRow :=
  rows.filter (fun r => r.avg.isSome)

/-- The ingestion transform of `excel_sample.py` on the concatenated rows:
coerce the average price and drop failures, truncate it to an integer,
replace the repeat-marker by missing and forward-fill the prefecture
column, then emit one record per retained row with name = city name,
address = (filled) prefecture name, price = integer average price. -/
def excelTransform (rows : List SheetRow) : List IngestedProperty :=
  let kept := retainedRows rows
  let prefs := ffill none (kept.map (fun r => prefToOpt r.pref))
  (kept.zip prefs).map (fun rp => ⟨rp.1.city, fillNA rp.2, truncRat (rp.1.avg.getD 0)⟩)

/-- The nearest preceding explicit prefecture name strictly before position
`j` of a row list (`none` when no explicit name precedes). -/
def nearestPrevExplicit (rows : List SheetRow) (j : ℕ) : Option String :=
  lastVal none ((rows.take j).map (fun r => prefToOpt r.pref))

/-- Position in the transform's output of the retained input row `j`:
the number of retained rows strictly before it. -/
def keptIdx (rows : List SheetRow) (j : ℕ) : ℕ :=
  (retainedRows (rows.take j)).length

/-- Claim C5 as stated: every retained marker row inherits the nearest
preceding explicit prefecture name *of the input*, dropped rows included. -/
def C5Stated : Prop :=
  ∀ (rows : List SheetRow) (j : ℕ) (hj : j < rows.length),
    rows[j].pref = PrefCell.marker →
    rows[j].avg.isSome →
    ∀ s, nearestPrevExplicit rows j = some s →
      ((excelTransform rows)[keptIdx rows j]?).map (fun p => p.address) = some s

/-- A three-row sheet: an explicit-prefecture row, a row with an explicit
prefecture but a non-numeric average price (dropped), and a repeat-marker
row. -/
def sampleSheet : List SheetRow :=
  [⟨PrefCell.name "東京都", "c1", some 100⟩,
   ⟨PrefCell.name "神奈川県", "c2", none⟩,
   ⟨PrefCell.marker, "c3", some 200⟩]

/-! ### Dashboard detail selection (`app.py`) -/

/-- The detail-view record selection of `app.py`:
`filtered_df[filtered_df["name"] == selected_name].iloc[0]` — the first
record of the filtered set whose name equals the selected name. The
selected address is accepted but not used by this line. -/
def detailSelect (filtered : List SchemaProperty) (selAddr selName : String) :
    Option SchemaProperty :=
  (filtered.filter (fun r => r.name == selName)).head?

/-- The options of the second selectbox: the names occurring within the
selected address (`filtered_df[filtered_df.address==selected_address]["name"].unique()`;
dedup does not change membership). -/
def namesWithin (filtered : List SchemaProperty) (selAddr : String) : List String :=
  (filtered.filter (fun r => r.address == selAddr)).map (fun r => r.name)

/-- Claim C8 as stated: for every filtered set, choosing an address and then
a name from the names within that address narrows the selection to a single
record matching both. -/
def C8Stated : Prop :=
  ∀ (filtered : List SchemaProperty) (selAddr selName : String),
    selAddr ∈ filtered.map (fun r => r.address) →
    selName ∈ namesWithin filtered selAddr →
    ∃ r, detailSelect filtered selAddr selName = some r ∧
      r.address = selAddr ∧ r.name = selName

/-- Two filtered records sharing a name across different addresses. -/
def sampleFiltered : List SchemaProperty :=
  [⟨1, "中央区", "東京都", 100⟩, ⟨2, "中央区", "大阪府", 200⟩]

/-! ### Helper lemmas -/

/-- Every id already in the store is at most `maxId`. -/
theorem id_le_maxId {db : List StoredProperty} {r : StoredProperty}
    (hr : r ∈ db) : r.id ≤ maxId db := by
  induction db with
  | nil => cases hr
  | cons a l ih =>
    rcases List.mem_cons.mp hr with h | h
    · subst h; simp [maxId]
    · calc r.id ≤ maxId l := ih h
        _ ≤ maxId (a :: l) := by simp [maxId]

/-- Forward-fill preserves column length. -/
theorem ffill_length (last : Option String) (xs : List (Option String)) :
    (ffill last xs).length = xs.length := by
  induction xs generalizing last with
  | nil => rfl
  | cons x xs ih => cases x <;> simp [ffill, ih]

/-- Entry `j` of a forward-filled column is the carried value after the
first `j + 1` entries. -/
theorem ffill_getElem? (xs : List (Option String)) (last : Option String)
    (j : ℕ) (hj : j < xs.length) :
    (ffill last xs)[j]? = some (lastVal last (xs.take (j + 1))) := by
  induction xs generalizing last j with
  | nil => cases hj
  | cons x xs ih =>
    cases x with
    | some s =>
      cases j with
      | zero => simp [ffill, lastVal]
      | succ j => simpa [ffill, lastVal] using ih (some s) j (by simpa using hj)
    | none =>
      cases j with
      | zero => simp [ffill, lastVal]
      | succ j => simpa [ffill, lastVal] using ih last j (by simpa using hj)

/-- The carried value over an appended column splits. -/
theorem lastVal_append (last : Option String) (l1 l2 : List (Option String)) :
    lastVal last (l1 ++ l2) = lastVal (lastVal last l1) l2 := by
  induction l1 generalizing last with
  | nil => rfl
  | cons x xs ih => cases x <;> simp [lastVal, ih]

/-- Entry `j` of a forward-filled column, when the source entry at `j` is
missing, is the value carried over the first `j` entries alone. -/
theorem ffill_getElem?_of_none (xs : List (Option String))
    (j : ℕ) (hj : j < xs.length) (hx : xs[j] = none) :
    (ffill none xs)[j]? = some (lastVal none (xs.take j)) := by
  rw [ffill_getElem? xs none j hj, List.take_succ]
  have : xs[j]? = some none := by rw [List.getElem?_eq_getElem hj, hx]
  rw [this]
  simp [lastVal_append, lastVal]

/-- The ingestion transform emits exactly one record per retained row. -/
theorem excelTransform_length (rows : List SheetRow) :
    (excelTransform rows).length = (retainedRows rows).length := by
  simp [excelTransform, ffill_length]

/-- The record emitted for retained row `i`: its city as name, the
forward-filled prefecture as address, the truncated average as price. -/
theorem excelTransform_getElem (rows : List SheetRow) (i : ℕ)
    (hi : i < (retainedRows rows).length)
    (hi2 : i < (excelTransform rows).length)
    (hp : i < (ffill none ((retainedRows rows).map (fun r => prefToOpt r.pref))).length) :
    (excelTransform rows)[i] =
      ⟨((retainedRows rows)[i]).city,
       fillNA ((ffill none ((retainedRows rows).map (fun r => prefToOpt r.pref)))[i]),
       truncRat (((retainedRows rows)[i]).avg.getD 0)⟩ := by
  simp [excelTransform, List.getElem_map, List.getElem_zip]

/-- Entry `j` of a forward-filled column, when the source entry at `j` is
present, is that entry itself. -/
theorem ffill_getElem?_of_some (xs : List (Option String))
    (j : ℕ) (hj : j < xs.length) (s : String) (hx : xs[j] = some s) :
    (ffill none xs)[j]? = some (some s) := by
  rw [ffill_getElem? xs none j hj, List.take_succ]
  have : xs[j]? = some (some s) := by rw [List.getElem?_eq_getElem hj, hx]
  rw [this]
  simp [lastVal_append, lastVal]

/-! ### Claim theorems -/

/-- **C1.** For every store state and all `skip, limit ≥ 0`, the list
operation returns at most `limit` records, in the store's insertion order:
element `i` of `list(skip, limit)` equals element `skip + i` of
`list(0, skip + limit)` (as indexed options, so the equation also records
which indices exist), and `limit = 0` always yields the empty sequence. -/
theorem C1_list_pagination (db : List StoredProperty) (skip limit : ℕ) :
    (get_properties db skip limit).length ≤ limit ∧
    (∀ i : ℕ, (get_properties db skip limit)[i]? =
      (get_properties db 0 (skip + limit))[skip + i]?) ∧
    get_properties db skip 0 = [] := by
  refine ⟨?_, ?_, ?_⟩
  · simp [get_properties]
  · intro i
    simp [get_properties, List.getElem?_take, List.getElem?_drop]
  · simp [get_properties]

/-- **C2.** For every id matching no row (including 0 and negative ids) the
lookup returns absent rather than raising, and the route answers 404 with
detail "Property not found"; when a row matches and serializes under the
response schema, the route answers 200 with that record's object. -/
theorem C2_get_by_id (db : List StoredProperty) (pid : Int) :
    ((∀ r ∈ db, r.id ≠ pid) →
      get_property db pid = none ∧
      read_property db pid = .notFound "Property not found" ∧
      (read_property db pid).status = 404) ∧
    (∀ r j, get_property db pid = some r → validateProperty r = some j →
      read_property db pid = .ok j ∧ (read_property db pid).status = 200) := by
  constructor
  · intro h
    have hn : get_property db pid = none := by
      simp only [get_property, List.find?_eq_none]
      intro r hr
      simpa using h r hr
    refine ⟨hn, ?_, ?_⟩ <;> simp [read_property, hn, ApiResult.status]
  · intro r j hr hj
    simp [read_property, hr, hj, ApiResult.status]

/-- Instantiation of C2: on the demo store, ids 0 and -1 yield absent and a
404 with the fixed detail, and id 1 yields 200 with the record. -/
theorem C2_get_by_id_witness :
    get_property demoDb 0 = none ∧
    read_property demoDb (-1) = .notFound "Property not found" ∧
    (read_property demoDb (-1)).status = 404 ∧
    read_property demoDb 1 =
      .ok ⟨1, "新宿ハイツ", "東京都新宿区西新宿1-1-1", (85000 : ℚ)⟩ ∧
    (read_property demoDb 1).status = 200 := by
  refine ⟨((C2_get_by_id demoDb 0).1 (by decide)).1,
          ((C2_get_by_id demoDb (-1)).1 (by decide)).2.1,
          ((C2_get_by_id demoDb (-1)).1 (by decide)).2.2,
          ((C2_get_by_id demoDb 1).2
            ⟨1, some "新宿ハイツ", some "東京都新宿区西新宿1-1-1", some (85000 : ℚ)⟩
            ⟨1, "新宿ハイツ", "東京都新宿区西新宿1-1-1", (85000 : ℚ)⟩ rfl rfl).1,
          ((C2_get_by_id demoDb 1).2
            ⟨1, some "新宿ハイツ", some "東京都新宿区西新宿1-1-1", some (85000 : ℚ)⟩
            ⟨1, "新宿ハイツ", "東京都新宿区西新宿1-1-1", (85000 : ℚ)⟩ rfl rfl).2⟩

/-- **C3.** Inserting a record with given name, address and price and then
retrieving it by its assigned id returns exactly those field values (text,
Unicode included, and the exact numeric price are stored and returned
unchanged). -/
theorem C3_insert_roundtrip (db : List StoredProperty) (c : PropertyCreate) :
    get_property (create_property db c).2 (create_property db c).1.id =
      some (create_property db c).1 ∧
    (create_property db c).1.name = some c.name ∧
    (create_property db c).1.address = some c.address ∧
    (create_property db c).1.price = some c.price := by
  refine ⟨?_, rfl, rfl, rfl⟩
  have hnone : db.find? (fun r => r.id == maxId db + 1) = none := by
    rw [List.find?_eq_none]
    intro r hr
    have := id_le_maxId hr
    simp only [beq_iff_eq]
    omega
  simp [get_property, create_property, List.find?_append, hnone]

/-- **C6.** Each request opens its own fresh session and releases it on
every exit path: after either route the set of open sessions is exactly
what it was before (in particular on the 404 path), the session used is the
pool's fresh one, and a second request served after the first uses a
different session, so no handle is shared across requests. -/
theorem C6_session_lifecycle (db : List StoredProperty) (pid : Int)
    (skip limit : ℕ) (pool : SessionPool) :
    (read_property_session db pid pool).2.2.openSessions = pool.openSessions ∧
    (read_properties_session db skip limit pool).2.2.openSessions = pool.openSessions ∧
    (read_property_session db pid pool).2.1 = pool.nextSession ∧
    (read_properties_session db skip limit pool).2.1 = pool.nextSession ∧
    (read_properties_session db skip limit
        (read_property_session db pid pool).2.2).2.1 ≠
      (read_property_session db pid pool).2.1 ∧
    (get_property db pid = none →
      (read_property_session db pid pool).1 = .notFound "Property not found" ∧
      (read_property_session db pid pool).2.2.openSessions = pool.openSessions) := by
  refine ⟨?_, ?_, rfl, rfl, ?_, ?_⟩
  · simp [read_property_session, openSession, closeSession]
  · simp [read_properties_session, openSession, closeSession]
  · simp [read_property_session, read_properties_session, openSession, closeSession]
  · intro h
    refine ⟨?_, ?_⟩
    · simp [read_property_session, openSession, read_property, h]
    · simp [read_property_session, openSession, closeSession]

/-- Instantiation of C6 on the demo store and an empty pool, exercising the
404 (raising) path: the request answers 404 and leaves no session open. -/
theorem C6_session_lifecycle_witness :
    (read_property_session demoDb 7 ⟨0, []⟩).1 = .notFound "Property not found" ∧
    (read_property_session demoDb 7 ⟨0, []⟩).2.2.openSessions = [] := by
  exact (C6_session_lifecycle demoDb 7 0 10 ⟨0, []⟩).2.2.2.2.2 (by decide)

/-- **C7.** Both GET routes are read-only: for every store state and every
request, the store after handling is exactly the store before — same
records, same ids, same field values. -/
theorem C7_read_only (req : ApiRequest) (db : List StoredProperty) :
    (handle req db).2 = db ∧
    (∀ r : StoredProperty, r ∈ (handle req db).2 ↔ r ∈ db) := by
  cases req <;> exact ⟨rfl, fun _ => Iff.rfl⟩

/-- **C9.** The stored model declares name, address and price nullable while
the response schema requires all fields non-null; hence a stored row with a
NULL field found by `GET /properties/` by id fails response validation: the
route cannot answer 200 carrying that record with a null field. -/
theorem C9_null_field_never_200 (db : List StoredProperty) (pid : Int)
    (r : StoredProperty) (hr : get_property db pid = some r)
    (hnull : r.name = none ∨ r.address = none ∨ r.price = none) :
    read_property db pid = .validationError ∧
    (read_property db pid).status ≠ 200 := by
  have hv : validateProperty r = none := by
    obtain ⟨i, n, a, p⟩ := r
    rcases n with _ | n <;> rcases a with _ | a <;> rcases p with _ | p <;>
      first
        | rfl
        | (exfalso; simp_all)
  constructor
  · simp [read_property, hr, hv]
  · simp [read_property, hr, hv, ApiResult.status]

/-- Instantiation of C9: a stored row with id 3 and a NULL price is found,
but the route yields a validation failure, not a 200. -/
theorem C9_null_field_never_200_witness :
    read_property [⟨3, some "空き地", some "東京都", none⟩] 3 = .validationError ∧
    (read_property [⟨3, some "空き地", some "東京都", none⟩] 3).status ≠ 200 :=
  C9_null_field_never_200 [⟨3, some "空き地", some "東京都", none⟩] 3
    ⟨3, some "空き地", some "東京都", none⟩ rfl (Or.inr (Or.inr rfl))

/-- **C10.** On a store with no rows the dashboard fails during
initialization (int conversion of the empty column's maximum, which is not
a number) instead of rendering an empty result list; on any non-empty store
the same initialization succeeds. -/
theorem C10_empty_store_init_fails :
    dashboardInit [] = .error "cannot convert float NaN to integer" ∧
    ∀ (r : SchemaProperty) (rs : List SchemaProperty),
      ∃ m, dashboardInit (r :: rs) = .ok (0, m) := by
  constructor
  · rfl
  · intro r rs
    refine ⟨truncRat ((rs.map (fun x => x.price)).max?.elim r.price (max r.price)), ?_⟩
    simp [dashboardInit, defaultMaxPrice, List.max?_cons]

/-- **C4.** The ingestion transform drops exactly the rows whose
average-price cell does not coerce to a number (one output record per
retained row, and a row is retained iff its cell coerced), truncates the
average price of each retained row to an integer, and emits per retained
row a record with name = its city name, price = the truncated average
price, and address = its prefecture name whenever that row carries an
explicit one. -/
theorem C4_ingestion_emit (rows : List SheetRow) :
    (excelTransform rows).length = (retainedRows rows).length ∧
    (∀ r ∈ rows, (r ∈ retainedRows rows ↔ r.avg.isSome)) ∧
    ∀ i (hi : i < (retainedRows rows).length),
      ∃ out, (excelTransform rows)[i]? = some out ∧
        out.name = ((retainedRows rows)[i]).city ∧
        (∀ q, ((retainedRows rows)[i]).avg = some q → out.price = truncRat q) ∧
        (∀ s, ((retainedRows rows)[i]).pref = PrefCell.name s → out.address = s) := by
  refine ⟨excelTransform_length rows, ?_, ?_⟩
  · intro r hr
    simp [retainedRows, List.mem_filter, hr]
  · intro i hi
    have hp : i < (ffill none ((retainedRows rows).map (fun r => prefToOpt r.pref))).length := by
      rw [ffill_length, List.length_map]; exact hi
    have hi2 : i < (excelTransform rows).length := by
      rw [excelTransform_length]; exact hi
    have hout := excelTransform_getElem rows i hi hi2 hp
    refine ⟨(excelTransform rows)[i], List.getElem?_eq_getElem hi2, ?_, ?_, ?_⟩
    · rw [hout]
    · intro q hq
      rw [hout]
      simp [hq]
    · intro s hs
      have h1 : (ffill none ((retainedRows rows).map (fun r => prefToOpt r.pref)))[i]? =
          some (some s) := by
        refine ffill_getElem?_of_some _ i (by simpa using hi) s ?_
        simp [List.getElem_map, hs, prefToOpt]
      rw [List.getElem?_eq_getElem hp] at h1
      rw [hout]
      simp [fillNA, Option.some.inj h1]

/-- Instantiation of C4 on `sampleSheet`: the row with the non-coercible
average price is dropped, and the first emitted record carries the first
row's city, explicit prefecture and truncated average price. -/
theorem C4_ingestion_emit_witness :
    (excelTransform sampleSheet).length = (retainedRows sampleSheet).length ∧
    (excelTransform sampleSheet)[0]? = some ⟨"c1", "東京都", 100⟩ := by
  obtain ⟨hlen, -, hidx⟩ := C4_ingestion_emit sampleSheet
  obtain ⟨out, h1, h2, h3, h4⟩ := hidx 0 (by decide)
  refine ⟨hlen, ?_⟩
  have hq : out.price = truncRat 100 := h3 100 (by decide)
  have hs : out.address = "東京都" := h4 "東京都" (by decide)
  have hn : out.name = "c1" := by rw [h2]; decide
  have h100 : truncRat (100 : ℚ) = 100 := by decide
  rw [h1]
  obtain ⟨n, a, p⟩ := out
  simp only at hq hs hn
  rw [hn, hs, hq, h100]

/-- **C5 counterexample.** The claim "every retained repeat-marker row
inherits the nearest preceding explicit prefecture name of the input" fails:
in `sampleSheet` the marker row follows an explicit-name row that is dropped
for its non-coercible average price, and the transform assigns the earlier
explicit name instead (rows are dropped before the forward-fill runs). -/
theorem C5_stated_counterexample : ¬ C5Stated := by
  intro h
  exact absurd
    (h sampleSheet 2 (by decide) (by decide) (by decide) "神奈川県" (by decide))
    (by decide)

/-- **C5 amended.** Each retained row whose prefecture cell is the
repeat-marker (or blank) inherits the nearest preceding explicit prefecture
name among the *retained* rows — rows dropped for a non-coercible average
price are skipped over — and stays missing when no such retained row
precedes it. -/
theorem C5_ffill_amended (rows : List SheetRow) (j : ℕ)
    (hj : j < (retainedRows rows).length)
    (hm : prefToOpt ((retainedRows rows)[j]).pref = none) :
    ((excelTransform rows)[j]?).map (fun p => p.address) =
      some (fillNA (nearestPrevExplicit (retainedRows rows) j)) := by
  have hp : j < (ffill none ((retainedRows rows).map (fun r => prefToOpt r.pref))).length := by
    rw [ffill_length, List.length_map]; exact hj
  have hj2 : j < (excelTransform rows).length := by
    rw [excelTransform_length]; exact hj
  have hj3 : j < ((retainedRows rows).map (fun r => prefToOpt r.pref)).length := by
    simpa using hj
  have hopt : ((retainedRows rows).map (fun r => prefToOpt r.pref))[j] = none := by
    simp [List.getElem_map, hm]
  have h1 := ffill_getElem?_of_none ((retainedRows rows).map (fun r => prefToOpt r.pref))
    j hj3 hopt
  rw [List.getElem?_eq_getElem hp] at h1
  rw [List.getElem?_eq_getElem hj2,
      excelTransform_getElem rows j hj hj2 hp]
  simp only [Option.map_some']
  rw [Option.some.inj h1]
  simp [nearestPrevExplicit, List.map_take]

/-- Instantiation of the amended C5 on `sampleSheet`: the marker row (second
retained row) inherits the first retained row's explicit name. -/
theorem C5_ffill_amended_witness :
    ((excelTransform sampleSheet)[1]?).map (fun p => p.address) = some "東京都" := by
  have h := C5_ffill_amended sampleSheet 1 (by decide) (by decide)
  rw [h]
  decide

/-- **C8 counterexample.** The claim "selecting an address, then a name
within it, narrows to a single record matching both" fails: with two
filtered records named 中央区 in 東京都 and 大阪府, selecting 大阪府 and then
中央区 yields the 東京都 record, because the detail line filters by name
only. -/
theorem C8_stated_counterexample : ¬ C8Stated := by
  intro h
  obtain ⟨r, hsel, haddr, -⟩ :=
    h sampleFiltered "大阪府" "中央区" (by decide) (by decide)
  have hc : detailSelect sampleFiltered "大阪府" "中央区" =
      some (⟨1, "中央区", "東京都", (100 : ℚ)⟩ : SchemaProperty) := by decide
  rw [hc] at hsel
  obtain rfl := Option.some.inj hsel
  exact absurd haddr (by decide)

/-- **C8 amended.** The detail view selects the first filtered record whose
name equals the selected name, ignoring the selected address; when exactly
one filtered record bears the selected name, that selection is the single
record matching both the selected address and the selected name. -/
theorem C8_detail_selection_amended (filtered : List SchemaProperty)
    (selAddr selName : String)
    (hmem : selName ∈ namesWithin filtered selAddr)
    (huniq : (filtered.filter (fun r => r.name == selName)).length = 1) :
    ∃ r, detailSelect filtered selAddr selName = some r ∧
      r.address = selAddr ∧ r.name = selName ∧
      ∀ r2 ∈ filtered, r2.name = selName → r2 = r := by
  obtain ⟨r0, hr0f, hr0n⟩ := List.mem_map.mp hmem
  obtain ⟨hr0mem, hr0a⟩ := List.mem_filter.mp hr0f
  obtain ⟨a, ha⟩ := List.length_eq_one.mp huniq
  have hr0in : r0 ∈ filtered.filter (fun r => r.name == selName) := by
    rw [List.mem_filter]
    exact ⟨hr0mem, by simp [hr0n]⟩
  have hr0a' : r0.address = selAddr := by simpa using hr0a
  have hr0eq : r0 = a := by
    rw [ha] at hr0in
    simpa using hr0in
  refine ⟨r0, ?_, hr0a', hr0n, ?_⟩
  · rw [detailSelect, ha, hr0eq]
    rfl
  · intro r2 hr2 hr2n
    have : r2 ∈ filtered.filter (fun r => r.name == selName) := by
      rw [List.mem_filter]
      exact ⟨hr2, by simp [hr2n]⟩
    rw [ha] at this
    simp at this
    rw [this, hr0eq]

/-- Instantiation of the amended C8: on a one-record filtered set the
selected address and name pick out exactly that record. -/
theorem C8_detail_selection_amended_witness :
    detailSelect [⟨1, "中央区", "東京都", (100 : ℚ)⟩] "東京都" "中央区" =
      some ⟨1, "中央区", "東京都", (100 : ℚ)⟩ := by
  obtain ⟨r, hsel, -, -, -⟩ :=
    C8_detail_selection_amended [⟨1, "中央区", "東京都", (100 : ℚ)⟩] "東京都" "中央区"
      (by decide) (by decide)
  exact hsel.trans (by rw [← hsel]; decide)

end RealEstate
